import Mathlib

/-!
Verification development for the SIP (Systematic Investment Plan) calculator
(`src/main.py`, class `SIPCalculator`).

Numeric model: Python floats are modelled as exact rationals (ℚ); Python ints
as ℕ where the source constrains them to be at least 1 (the `years` field has
UI minimum 1).  Python raises `ZeroDivisionError` on division by zero (also
for floats: `0.0 / 0.0` raises), so fallible arithmetic is modelled with
`Option` / an explicit error constructor rather than total division.
-/

namespace SIPCalculator

/-- One entry of the fund record store.  The source keeps funds as dicts with
keys `fund_name`, `monthly_investment`, `rate_of_return`, `years`
(`src/main.py` lines 136-141). -/
structure Fund where
  fund_name : String
  monthly_investment : ℚ
  rate_of_return : ℚ
  years : ℕ
deriving DecidableEq, Repr

/-- Embedding of `SIPCalculator.calculate_sip_future_value` (src/main.py
lines 10-27):

    months = years * 12
    monthly_rate = rate_of_return / 100 / 12
    future_value = monthly_investment * (((1 + monthly_rate) ** months - 1) / monthly_rate) * (1 + monthly_rate)

The source divides by `monthly_rate` unconditionally; in Python a zero
`monthly_rate` makes `0.0 / 0.0` raise `ZeroDivisionError`, modelled here as
`none`.  When `monthly_rate ≠ 0` the computation succeeds and returns the
formula value. -/
def calculate_sip_future_value (monthly_investment : ℚ) (rate_of_return : ℚ)
    (years : ℕ) : Option ℚ :=
  let months : ℕ := years * 12
  let monthly_rate : ℚ := rate_of_return / 100 / 12
  if monthly_rate = 0 then
    none
  else
    some (monthly_investment * (((1 + monthly_rate) ^ months - 1) / monthly_rate)
      * (1 + monthly_rate))

/-- The Python builtin `round(x, 2)` (round half to even, applied at scale
100), used by
the report builder for the display/export rows and the summary CSV
(src/main.py lines 170-172 and 243-245). -/
def pyRound2 (q : ℚ) : ℚ :=
  let y : ℚ := q * 100
  let f : ℤ := ⌊y⌋
  let frac : ℚ := y - f
  let r : ℤ :=
    if frac < 1/2 then f
    else if 1/2 < frac then f + 1
    else if f % 2 = 0 then f else f + 1
  (r : ℚ) / 100

/-- One row of the per-fund results table (`data.append({...})`, src/main.py
lines 168-173).  Field names follow the CSV column headers. -/
structure FundRow where
  name : String
  invested : ℚ
  returns : ℚ
  futureValue : ℚ
deriving DecidableEq, Repr

/-- The rounded one-row summary CSV (src/main.py lines 242-246). -/
structure SummaryRow where
  total_invested_amount : ℚ
  total_estimated_returns : ℚ
  total_future_value : ℚ
deriving DecidableEq, Repr

/-- Everything `calculate_and_visualize` derives from a non-empty fund list
when no division error occurs: the per-fund table, the unrounded totals, the
two percentage deltas shown by `st.metric` (src/main.py lines 204 and 211),
and the rounded summary row. -/
structure Report where
  rows : List FundRow
  total_invested : ℚ
  total_estimated_return : ℚ
  total_future_value : ℚ
  returns_delta_pct : ℚ
  future_delta_pct : ℚ
  summary_row : SummaryRow
deriving DecidableEq, Repr

/-- Possible outcomes of `calculate_and_visualize`: the empty-portfolio
warning (`st.warning(...)` then `return`, lines 150-152), an uncaught
`ZeroDivisionError` (from the calculator or from the percentage deltas), or a
produced report. -/
inductive ReportOutcome where
  | emptyWarning : ReportOutcome
  | divisionError : ReportOutcome
  | report : Report → ReportOutcome
deriving DecidableEq, Repr

/-- The per-fund loop of `calculate_and_visualize` (src/main.py lines
158-173): iterate over the funds with a running index, compute each future
value, accumulate the unrounded totals, and append a display row whose
monetary figures are rounded to 2 decimals and whose name falls back to the
positional label `"Fund {idx+1}"` when the stored name is empty (Python
`fund["fund_name"] or f"Fund {idx + 1}"`).  A `ZeroDivisionError` from the
calculator aborts the loop (`none`). -/
def reportLoop : List Fund → ℕ → List FundRow → ℚ → ℚ →
    Option (List FundRow × ℚ × ℚ)
  | [], _, data, total_future_value, total_invested_amount =>
      some (data, total_future_value, total_invested_amount)
  | fund :: rest, idx, data, total_future_value, total_invested_amount =>
      match calculate_sip_future_value fund.monthly_investment
          fund.rate_of_return fund.years with
      | none => none
      | some future_value =>
          let invested_amount : ℚ :=
            fund.monthly_investment * (fund.years : ℚ) * 12
          reportLoop rest (idx + 1)
            (data ++ [{ name := if fund.fund_name = "" then
                          "Fund " ++ toString (idx + 1)
                        else fund.fund_name
                      , invested := pyRound2 invested_amount
                      , returns := pyRound2 (future_value - invested_amount)
                      , futureValue := pyRound2 future_value }])
            (total_future_value + future_value)
            (total_invested_amount + invested_amount)

/-- Embedding of `SIPCalculator.calculate_and_visualize` (src/main.py lines
148-256).  An empty store yields the warning and no report.  Otherwise the
loop runs; afterwards the metrics display divides the totals by
`total_invested_amount` unconditionally (lines 204 and 211), so a zero total
invested amount raises `ZeroDivisionError`, modelled as `divisionError`. -/
def calculate_and_visualize (funds : List Fund) : ReportOutcome :=
  if funds.isEmpty then
    ReportOutcome.emptyWarning
  else
    match reportLoop funds 0 [] 0 0 with
    | none => ReportOutcome.divisionError
    | some (data, total_future_value, total_invested_amount) =>
        let total_estimated_return : ℚ :=
          total_future_value - total_invested_amount
        if total_invested_amount = 0 then
          ReportOutcome.divisionError
        else
          ReportOutcome.report
            { rows := data
            , total_invested := total_invested_amount
            , total_estimated_return := total_estimated_return
            , total_future_value := total_future_value
            , returns_delta_pct :=
                total_estimated_return / total_invested_amount * 100
            , future_delta_pct :=
                total_future_value / total_invested_amount * 100
            , summary_row :=
                { total_invested_amount := pyRound2 total_invested_amount
                , total_estimated_returns := pyRound2 total_estimated_return
                , total_future_value := pyRound2 total_future_value } }

/-- The default entry appended by the "Add Fund" button (src/main.py lines
136-141). -/
def default_fund : Fund :=
  { fund_name := "", monthly_investment := 1000, rate_of_return := 7, years := 10 }

/-- Store mutation performed by the "Add Fund" button:
`st.session_state.funds.append({...})` (src/main.py lines 135-142). -/
def add_fund (store : List Fund) : List Fund :=
  store ++ [default_fund]

/-- A parsed CSV upload as handed over by `pd.read_csv` / `df.to_dict`:
its header columns and its records. -/
structure CSVTable where
  columns : List String
  rows : List Fund
deriving DecidableEq, Repr

/-- Required CSV columns (src/main.py line 80). -/
def required_columns : List String :=
  ["fund_name", "monthly_investment", "rate_of_return", "years"]

/-- The missing-column check (src/main.py line 81):
`[col for col in required_columns if col not in df.columns]`. -/
def missing_columns (df : CSVTable) : List String :=
  required_columns.filter (fun col => !df.columns.contains col)

/-- Effect of the CSV-upload handler on the fund record store (src/main.py
lines 74-90).  `upload = none` models `pd.read_csv` raising (the `except`
branch shows an error; the store is untouched).  With a readable table,
missing required columns show an error and leave the store untouched;
otherwise `st.session_state.funds = df.to_dict(...)` replaces the contents
of the store with the parsed rows. -/
def handle_csv_upload (store : List Fund) (upload : Option CSVTable) :
    List Fund :=
  match upload with
  | none => store
  | some df =>
      if missing_columns df = [] then df.rows else store

/-- The unrounded future value the general formula yields for one fund (the
value the calculator returns whenever its monthly rate is nonzero). -/
def fvFormula (f : Fund) : ℚ :=
  let monthly_rate : ℚ := f.rate_of_return / 100 / 12
  f.monthly_investment * (((1 + monthly_rate) ^ (f.years * 12) - 1) / monthly_rate)
    * (1 + monthly_rate)

/-- The unrounded invested amount of one fund
(`fund["monthly_investment"] * fund["years"] * 12`, src/main.py line 164). -/
def invested_amount (f : Fund) : ℚ :=
  f.monthly_investment * (f.years : ℚ) * 12

/-- The display row the report loop appends for the fund at 0-based index
`idx`, assuming its future-value computation succeeded. -/
def rowSpec (idx : ℕ) (f : Fund) : FundRow :=
  { name := if f.fund_name = "" then "Fund " ++ toString (idx + 1) else f.fund_name
  , invested := pyRound2 (invested_amount f)
  , returns := pyRound2 (fvFormula f - invested_amount f)
  , futureValue := pyRound2 (fvFormula f) }

/-- The rows the report loop produces for a fund list whose enumeration
starts at 0-based index `idx`. -/
def rowsSpec : List Fund → ℕ → List FundRow
  | [], _ => []
  | f :: rest, idx => rowSpec idx f :: rowsSpec rest (idx + 1)

/-- Concrete one-fund portfolio used to evaluate the report builder on a
closed input: blank name, contribution 1, annual rate 1200% (monthly rate
1), one year. -/
def fundW : Fund :=
  { fund_name := "", monthly_investment := 1, rate_of_return := 1200, years := 1 }

/-- The report the code produces for `[fundW]`: future value
`1 × ((2^12 − 1) / 1) × 2 = 8190`, invested amount 12. -/
def repW : Report :=
  { rows := [{ name := "Fund 1", invested := 12, returns := 8178
             , futureValue := 8190 }]
  , total_invested := 12
  , total_estimated_return := 8178
  , total_future_value := 8190
  , returns_delta_pct := 68150
  , future_delta_pct := 68250
  , summary_row := { total_invested_amount := 12
                   , total_estimated_returns := 8178
                   , total_future_value := 8190 } }

/-- When the calculator succeeds, the value it returns is the general-formula
value. -/
lemma calc_eq_some {f : Fund} {fv : ℚ}
    (h : calculate_sip_future_value f.monthly_investment f.rate_of_return
      f.years = some fv) : fv = fvFormula f := by
  by_cases h0 : f.rate_of_return / 100 / 12 = 0
  · simp [calculate_sip_future_value, h0] at h
  · simp [calculate_sip_future_value, h0, fvFormula] at h
    exact h.symm

/-- When the calculator succeeds, its monthly rate is nonzero. -/
lemma calc_some_rate_ne {f : Fund} {fv : ℚ}
    (h : calculate_sip_future_value f.monthly_investment f.rate_of_return
      f.years = some fv) : f.rate_of_return / 100 / 12 ≠ 0 := by
  intro h0
  simp [calculate_sip_future_value, h0] at h

/-- The report loop accumulates the running totals from the unrounded
per-fund values: on success the final totals are the starting totals plus
the exact sums of the per-fund formula values and invested amounts. -/
lemma reportLoop_totals :
    ∀ (funds : List Fund) (idx : ℕ) (data : List FundRow) (tfv tinv : ℚ)
      (out : List FundRow × ℚ × ℚ),
      reportLoop funds idx data tfv tinv = some out →
      out.2.1 = tfv + (funds.map fvFormula).sum ∧
      out.2.2 = tinv + (funds.map invested_amount).sum := by
  intro funds
  induction funds with
  | nil =>
      intro idx data tfv tinv out h
      simp only [reportLoop, Option.some.injEq] at h
      rw [← h]
      simp
  | cons f rest ih =>
      intro idx data tfv tinv out h
      rw [reportLoop] at h
      cases hc : calculate_sip_future_value f.monthly_investment
          f.rate_of_return f.years with
      | none => rw [hc] at h; simp at h
      | some fv =>
          rw [hc] at h
          simp only at h
          obtain ⟨ha, hb⟩ := ih (idx + 1) _ _ _ _ h
          have hfv : fv = fvFormula f := calc_eq_some hc
          constructor
          · rw [ha, hfv]
            simp only [List.map_cons, List.sum_cons]
            ring
          · rw [hb]
            simp only [List.map_cons, List.sum_cons, invested_amount]
            ring

/-- The report loop extends the already-built rows with exactly the rows of
`rowsSpec`: one display row per fund, in order. -/
lemma reportLoop_rows :
    ∀ (funds : List Fund) (idx : ℕ) (data : List FundRow) (tfv tinv : ℚ)
      (out : List FundRow × ℚ × ℚ),
      reportLoop funds idx data tfv tinv = some out →
      out.1 = data ++ rowsSpec funds idx := by
  intro funds
  induction funds with
  | nil =>
      intro idx data tfv tinv out h
      simp only [reportLoop, Option.some.injEq] at h
      rw [← h]
      simp [rowsSpec]
  | cons f rest ih =>
      intro idx data tfv tinv out h
      rw [reportLoop] at h
      cases hc : calculate_sip_future_value f.monthly_investment
          f.rate_of_return f.years with
      | none => rw [hc] at h; simp at h
      | some fv =>
          rw [hc] at h
          simp only at h
          have hfv : fv = fvFormula f := calc_eq_some hc
          have := ih (idx + 1) _ _ _ _ h
          rw [this, hfv]
          simp [rowsSpec, rowSpec, invested_amount]

/-- Length of the specification rows. -/
lemma rowsSpec_length : ∀ (funds : List Fund) (idx : ℕ),
    (rowsSpec funds idx).length = funds.length := by
  intro funds
  induction funds with
  | nil => intro idx; rfl
  | cons f rest ih => intro idx; simp [rowsSpec, ih]

/-- The specification row at position `i` comes from the fund at position
`i`, labelled with index `idx + i`. -/
lemma rowsSpec_getElem :
    ∀ (funds : List Fund) (idx i : ℕ),
      (rowsSpec funds idx)[i]? = (funds[i]?).map (rowSpec (idx + i)) := by
  intro funds
  induction funds with
  | nil => intro idx i; simp [rowsSpec]
  | cons f rest ih =>
      intro idx i
      cases i with
      | zero => simp [rowsSpec]
      | succ n =>
          simp only [rowsSpec, List.getElem?_cons_succ]
          rw [ih (idx + 1) n]
          have : idx + 1 + n = idx + (n + 1) := by omega
          rw [this]

/-- Whenever `calculate_and_visualize` produces a report, the fields of that
report come from a successful run of the loop with nonzero total invested
amount. -/
lemma visualize_report_inv {funds : List Fund} {rep : Report}
    (h : calculate_and_visualize funds = ReportOutcome.report rep) :
    ∃ out : List FundRow × ℚ × ℚ,
      reportLoop funds 0 [] 0 0 = some out ∧
      rep.rows = out.1 ∧
      rep.total_future_value = out.2.1 ∧
      rep.total_invested = out.2.2 ∧
      rep.total_estimated_return = out.2.1 - out.2.2 ∧
      rep.summary_row =
        { total_invested_amount := pyRound2 out.2.2
        , total_estimated_returns := pyRound2 (out.2.1 - out.2.2)
        , total_future_value := pyRound2 out.2.1 } ∧
      out.2.2 ≠ 0 := by
  unfold calculate_and_visualize at h
  by_cases he : funds.isEmpty
  · rw [if_pos he] at h
    simp at h
  · rw [if_neg he] at h
    cases hout : reportLoop funds 0 [] 0 0 with
    | none => rw [hout] at h; simp at h
    | some out =>
        rw [hout] at h
        obtain ⟨data, tfv, tinv⟩ := out
        simp only at h
        by_cases hz : tinv = 0
        · rw [if_pos hz] at h
          simp at h
        · rw [if_neg hz] at h
          have hrep := (ReportOutcome.report.inj h).symm
          exact ⟨(data, tfv, tinv), rfl, by rw [hrep], by rw [hrep],
            by rw [hrep], by rw [hrep], by rw [hrep], hz⟩

/-- Evaluation of the report builder on the concrete one-fund portfolio
`[fundW]`. -/
lemma visualize_fundW :
    calculate_and_visualize [fundW] = ReportOutcome.report repW := by
  have hs : "Fund " ++ toString 1 = "Fund 1" := rfl
  norm_num [calculate_and_visualize, reportLoop, calculate_sip_future_value,
    pyRound2, fundW, repW, hs]

/-- Claim C1: the spec requires the zero-rate degenerate case to be handled
explicitly and return `monthly_contribution × years × 12` with no division
error.  The code has no such branch: with `rate_of_return = 0` the monthly
rate is 0 and Python evaluates `0.0 / 0.0`, raising `ZeroDivisionError`
(modelled as `none`) for every contribution and every duration. -/
theorem C1_zero_rate_raises (c : ℚ) (years : ℕ) :
    calculate_sip_future_value c 0 years = none := by
  norm_num [calculate_sip_future_value]

/-- Claim C3: with a positive annual rate the calculator returns exactly the
annuity-due future-value formula
`monthly_contribution × (((1 + r)^n − 1) / r) × (1 + r)` with `n = years × 12`
and `r = annual_rate_percent / 100 / 12`. -/
theorem C3_formula (c rate : ℚ) (years : ℕ) (hc : 0 ≤ c) (hr : 0 < rate)
    (hy : 1 ≤ years) :
    calculate_sip_future_value c rate years =
      some (c * (((1 + rate / 100 / 12) ^ (years * 12) - 1) / (rate / 100 / 12))
        * (1 + rate / 100 / 12)) := by
  have h0 : rate / 100 / 12 ≠ 0 := by positivity
  simp [calculate_sip_future_value, h0]

/-- Witness for C3 at `c = 1`, `rate = 1200`, `years = 1` (monthly rate 1,
12 periods). -/
theorem C3_formula_w :
    calculate_sip_future_value 1 1200 1 =
      some (1 * (((1 + (1200 : ℚ) / 100 / 12) ^ (1 * 12) - 1) / ((1200 : ℚ) / 100 / 12))
        * (1 + (1200 : ℚ) / 100 / 12)) :=
  C3_formula 1 1200 1 (by norm_num) (by norm_num) (by norm_num)

/-- Claim C6 as frozen fails at `monthly_contribution = 0` (allowed by its
hypothesis `c ≥ 0`): with rate 1200 and one year the calculator returns
future value 0, which is not strictly greater than the invested amount
`0 × 1 × 12 = 0`. -/
theorem C6_counterexample :
    calculate_sip_future_value 0 1200 1 = some 0 ∧
    ¬ ((0 : ℚ) * 1 * 12 < 0) := by
  constructor
  · norm_num [calculate_sip_future_value]
  · norm_num

/-- Claim C6 (amended: the contribution must be strictly positive): for
every `monthly_contribution > 0`, `annual_rate_percent > 0` and
`years ≥ 1`, the future value returned by the calculator strictly exceeds
the invested amount `c × years × 12`. -/
theorem C6_exceeds_invested (c rate : ℚ) (years : ℕ) (fv : ℚ) (hc : 0 < c)
    (hr : 0 < rate) (hy : 1 ≤ years)
    (h : calculate_sip_future_value c rate years = some fv) :
    c * (years : ℚ) * 12 < fv := by
  have h0 : rate / 100 / 12 ≠ 0 := by positivity
  have hr' : (0 : ℚ) < rate / 100 / 12 := by positivity
  simp only [calculate_sip_future_value] at h
  rw [if_neg h0] at h
  set r : ℚ := rate / 100 / 12 with hrdef
  have hfv : fv = c * (((1 + r) ^ (years * 12) - 1) / r) * (1 + r) :=
    (Option.some.inj h).symm
  have hbern : 1 + ((years * 12 : ℕ) : ℚ) * r ≤ (1 + r) ^ (years * 12) :=
    one_add_mul_le_pow (by linarith) (years * 12)
  have h2 : ((years * 12 : ℕ) : ℚ) ≤ ((1 + r) ^ (years * 12) - 1) / r :=
    (le_div_iff₀ hr').mpr (by linarith)
  have hnpos : (0 : ℚ) < ((years * 12 : ℕ) : ℚ) := by
    have : 0 < years * 12 := by omega
    exact_mod_cast this
  have hXpos : 0 < ((1 + r) ^ (years * 12) - 1) / r := lt_of_lt_of_le hnpos h2
  have h3 : ((1 + r) ^ (years * 12) - 1) / r <
      ((1 + r) ^ (years * 12) - 1) / r * (1 + r) := by
    nth_rewrite 1 [← mul_one (((1 + r) ^ (years * 12) - 1) / r)]
    exact mul_lt_mul_of_pos_left (by linarith) hXpos
  have h5 : c * ((years * 12 : ℕ) : ℚ) <
      c * (((1 + r) ^ (years * 12) - 1) / r * (1 + r)) :=
    mul_lt_mul_of_pos_left (lt_of_le_of_lt h2 h3) hc
  have hcast : c * (years : ℚ) * 12 = c * ((years * 12 : ℕ) : ℚ) := by
    push_cast
    ring
  rw [hfv, hcast, mul_assoc]
  exact h5

/-- Witness for the amended C6 at `c = 1`, `rate = 1200`, `years = 1`:
future value 8190 exceeds the invested amount 12. -/
theorem C6_exceeds_invested_w : (1 : ℚ) * ((1 : ℕ) : ℚ) * 12 < 8190 :=
  C6_exceeds_invested 1 1200 1 8190 (by norm_num) (by norm_num) (by norm_num)
    (by norm_num [calculate_sip_future_value])

/-- Claim C7 as frozen fails at `monthly_contribution = 0` (allowed by its
hypothesis `c ≥ 0`): with zero contribution the future value is 0 for one
year and for two years alike, so it does not strictly increase in
`years`. -/
theorem C7_counterexample :
    calculate_sip_future_value 0 1200 1 = some 0 ∧
    calculate_sip_future_value 0 1200 2 = some 0 ∧
    ¬ ((0 : ℚ) < 0) := by
  refine ⟨?_, ?_, by norm_num⟩ <;> norm_num [calculate_sip_future_value]

/-- Claim C7 (amended: the contribution must be strictly positive): for
every `monthly_contribution > 0` and `annual_rate_percent > 0`, the future
value is strictly monotonically increasing in `years`. -/
theorem C7_monotone_in_years (c rate : ℚ) (y1 y2 : ℕ) (fv1 fv2 : ℚ)
    (hc : 0 < c) (hr : 0 < rate) (hy1 : 1 ≤ y1) (hlt : y1 < y2)
    (h1 : calculate_sip_future_value c rate y1 = some fv1)
    (h2 : calculate_sip_future_value c rate y2 = some fv2) :
    fv1 < fv2 := by
  have h0 : rate / 100 / 12 ≠ 0 := by positivity
  have hr' : (0 : ℚ) < rate / 100 / 12 := by positivity
  simp only [calculate_sip_future_value] at h1 h2
  rw [if_neg h0] at h1 h2
  set r : ℚ := rate / 100 / 12 with hrdef
  have hfv1 : fv1 = c * (((1 + r) ^ (y1 * 12) - 1) / r) * (1 + r) :=
    (Option.some.inj h1).symm
  have hfv2 : fv2 = c * (((1 + r) ^ (y2 * 12) - 1) / r) * (1 + r) :=
    (Option.some.inj h2).symm
  have hpow : (1 + r) ^ (y1 * 12) < (1 + r) ^ (y2 * 12) :=
    pow_lt_pow_right₀ (by linarith) (by omega)
  have hX : ((1 + r) ^ (y1 * 12) - 1) / r < ((1 + r) ^ (y2 * 12) - 1) / r :=
    (div_lt_div_iff_of_pos_right hr').mpr (by linarith)
  have hcx : c * (((1 + r) ^ (y1 * 12) - 1) / r) <
      c * (((1 + r) ^ (y2 * 12) - 1) / r) := mul_lt_mul_of_pos_left hX hc
  have := mul_lt_mul_of_pos_right hcx (show (0 : ℚ) < 1 + r by linarith)
  rw [hfv1, hfv2]
  exact this

/-- Witness for the amended C7 at `c = 1`, `rate = 1200`, years 1 and 2:
the future value grows from 8190 to 33554430. -/
theorem C7_monotone_in_years_w : (8190 : ℚ) < 33554430 :=
  C7_monotone_in_years 1 1200 1 2 8190 33554430 (by norm_num) (by norm_num)
    (by norm_num) (by norm_num) (by norm_num [calculate_sip_future_value])
    (by norm_num [calculate_sip_future_value])

/-- Claim C8: requesting a report over an empty fund list produces the
empty-portfolio warning ("Please add at least one fund.") and no report. -/
theorem C8_empty_portfolio :
    calculate_and_visualize [] = ReportOutcome.emptyWarning := rfl

/-- Claim C5: the CSV import is all-or-nothing: an unreadable upload or one
with missing required columns leaves the fund record store exactly as it was,
and a successful import entirely replaces the stored entries with the
parsed rows. -/
theorem C5_import_all_or_nothing (store : List Fund) (df : CSVTable) :
    handle_csv_upload store none = store ∧
    (missing_columns df ≠ [] → handle_csv_upload store (some df) = store) ∧
    (missing_columns df = [] → handle_csv_upload store (some df) = df.rows) := by
  refine ⟨rfl, ?_, ?_⟩ <;> intro h <;> simp [handle_csv_upload, h]

/-- Witness for C5: a table missing three required columns leaves a
one-entry store unchanged, and a table with all required columns replaces
it. -/
theorem C5_import_all_or_nothing_w :
    handle_csv_upload [default_fund]
      (some { columns := ["fund_name"], rows := [] }) = [default_fund] ∧
    handle_csv_upload [default_fund]
      (some { columns := required_columns
            , rows := [{ fund_name := "X", monthly_investment := 5
                       , rate_of_return := 8, years := 2 }] }) =
      [{ fund_name := "X", monthly_investment := 5, rate_of_return := 8
       , years := 2 }] :=
  ⟨(C5_import_all_or_nothing [default_fund]
      { columns := ["fund_name"], rows := [] }).2.1 (by decide),
   (C5_import_all_or_nothing [default_fund]
      { columns := required_columns
      , rows := [{ fund_name := "X", monthly_investment := 5
                 , rate_of_return := 8, years := 2 }] }).2.2 (by decide)⟩

/-- Claim C10: the "Add Fund" button appends exactly one entry at the end,
with default values name `""`, contribution `1000.0`, rate `7.0`, duration
`10` years, and leaves every pre-existing entry at its position. -/
theorem C10_add_fund (store : List Fund) :
    (add_fund store).length = store.length + 1 ∧
    (∀ i, i < store.length → (add_fund store)[i]? = store[i]?) ∧
    (add_fund store)[store.length]? =
      some { fund_name := "", monthly_investment := 1000
           , rate_of_return := 7, years := 10 } := by
  refine ⟨by simp [add_fund], ?_, ?_⟩
  · intro i hi
    simp [add_fund, List.getElem?_append, hi]
  · simp [add_fund, default_fund]

/-- Witness for C10 over a one-entry store. -/
theorem C10_add_fund_w :
    (add_fund [{ fund_name := "A", monthly_investment := 1, rate_of_return := 2
               , years := 3 }]).length =
      [({ fund_name := "A", monthly_investment := 1, rate_of_return := 2
        , years := 3 } : Fund)].length + 1 ∧
    (add_fund [{ fund_name := "A", monthly_investment := 1, rate_of_return := 2
               , years := 3 }])[0]? =
      [({ fund_name := "A", monthly_investment := 1, rate_of_return := 2
        , years := 3 } : Fund)][0]? ∧
    (add_fund [{ fund_name := "A", monthly_investment := 1, rate_of_return := 2
               , years := 3 }])[1]? =
      some { fund_name := "", monthly_investment := 1000, rate_of_return := 7
           , years := 10 } :=
  ⟨(C10_add_fund _).1, (C10_add_fund _).2.1 0 (by norm_num),
    (C10_add_fund _).2.2⟩

/-- Claim C2: the spec requires the summary percentages to be reported as
not-applicable when the total invested amount is zero, without performing
the division.  The code divides unconditionally
(`total_estimated_return/total_invested_amount*100` and
`total_future_value/total_invested_amount*100` in the metrics display), so a
non-empty portfolio whose only fund has contribution 0 (and nonzero rate, so
the per-fund computation succeeds) raises `ZeroDivisionError` instead of
producing a report. -/
theorem C2_zero_invested_division_error :
    calculate_and_visualize
      [{ fund_name := "Fund A", monthly_investment := 0, rate_of_return := 12
       , years := 1 }] = ReportOutcome.divisionError := by
  norm_num [calculate_and_visualize, reportLoop, calculate_sip_future_value]

/-- Claim C4: whenever a report is produced, its totals are the exact sums
of the unrounded per-fund values (future value, invested amount, and their
difference), rounding to 2 decimals being applied only to the per-fund
display rows and to the separately rounded summary export row. -/
theorem C4_totals_unrounded (funds : List Fund) (rep : Report)
    (h : calculate_and_visualize funds = ReportOutcome.report rep) :
    rep.total_future_value = (funds.map fvFormula).sum ∧
    rep.total_invested = (funds.map invested_amount).sum ∧
    rep.total_estimated_return =
      (funds.map fvFormula).sum - (funds.map invested_amount).sum ∧
    rep.rows = rowsSpec funds 0 ∧
    rep.summary_row =
      { total_invested_amount := pyRound2 ((funds.map invested_amount).sum)
      , total_estimated_returns :=
          pyRound2 ((funds.map fvFormula).sum - (funds.map invested_amount).sum)
      , total_future_value := pyRound2 ((funds.map fvFormula).sum) } := by
  obtain ⟨out, hout, hrows, htfv, htinv, hter, hsum, hz⟩ :=
    visualize_report_inv h
  obtain ⟨ha, hb⟩ := reportLoop_totals funds 0 [] 0 0 out hout
  have hrs := reportLoop_rows funds 0 [] 0 0 out hout
  have h1 : out.2.1 = (funds.map fvFormula).sum := by rw [ha]; ring
  have h2 : out.2.2 = (funds.map invested_amount).sum := by rw [hb]; ring
  exact ⟨by rw [htfv, h1], by rw [htinv, h2], by rw [hter, h1, h2],
    by rw [hrows, hrs]; simp, by rw [hsum, h1, h2]⟩

/-- Witness for C4 on the concrete one-fund portfolio `[fundW]`. -/
theorem C4_totals_unrounded_w :
    repW.total_future_value = ([fundW].map fvFormula).sum ∧
    repW.total_invested = ([fundW].map invested_amount).sum ∧
    repW.total_estimated_return =
      ([fundW].map fvFormula).sum - ([fundW].map invested_amount).sum ∧
    repW.rows = rowsSpec [fundW] 0 ∧
    repW.summary_row =
      { total_invested_amount := pyRound2 (([fundW].map invested_amount).sum)
      , total_estimated_returns :=
          pyRound2 (([fundW].map fvFormula).sum -
            ([fundW].map invested_amount).sum)
      , total_future_value := pyRound2 (([fundW].map fvFormula).sum) } :=
  C4_totals_unrounded [fundW] repW visualize_fundW

/-- Claim C9: in any produced report there is exactly one row per stored
fund, and the row of a fund whose stored name is blank carries the
positional label `"Fund {1-based index}"`, while any nonblank stored name is
used as-is.  The embedding is purely functional: the fund record store
passed to `calculate_and_visualize` is not modified by report building. -/
theorem C9_blank_name_label (funds : List Fund) (rep : Report)
    (h : calculate_and_visualize funds = ReportOutcome.report rep) :
    rep.rows.length = funds.length ∧
    ∀ i, Option.map FundRow.name rep.rows[i]? =
      Option.map (fun f => if f.fund_name = "" then "Fund " ++ toString (i + 1)
        else f.fund_name) funds[i]? := by
  obtain ⟨out, hout, hrows, htfv, htinv, hter, hsum, hz⟩ :=
    visualize_report_inv h
  have hrs := reportLoop_rows funds 0 [] 0 0 out hout
  have hr0 : rep.rows = rowsSpec funds 0 := by rw [hrows, hrs]; simp
  constructor
  · rw [hr0, rowsSpec_length]
  · intro i
    rw [hr0, rowsSpec_getElem funds 0 i]
    cases funds[i]? with
    | none => rfl
    | some f => simp [rowSpec]

/-- Witness for C9 on `[fundW]`, whose stored name is blank: row 0 is
labelled "Fund 1". -/
theorem C9_blank_name_label_w :
    repW.rows.length = [fundW].length ∧
    Option.map FundRow.name repW.rows[0]? =
      Option.map (fun f => if f.fund_name = "" then "Fund " ++ toString (0 + 1)
        else f.fund_name) [fundW][0]? :=
  ⟨(C9_blank_name_label [fundW] repW visualize_fundW).1,
   (C9_blank_name_label [fundW] repW visualize_fundW).2 0⟩

end SIPCalculator
